import Mathlib

/-!
Verification of the `/review` upload-and-review pipeline of `src/server.js`
(the developed variant targeting the local Ollama daemon).

The handler is embedded shallowly: JavaScript strings become `String`
(a wrapped `List Char`), the per-request control flow becomes a pure
function from the parsed upload and the backend call's outcome to the
HTTP response together with the observable side effects (file read,
prompt sent, artifact written, temp-file cleanup).  Time-derived response
fields (`processingTime`, `requestId`, the timestamped artifact path) are
not modelled; everything else follows the source line by line.
-/

/-- JS `s.substring(0, n)`: the first `n` characters of `s`. -/
def jsSubstring0 (s : String) (n : Nat) : String := ⟨s.data.take n⟩

/-- JS `s.trim()`: strip whitespace from both ends. -/
def jsTrim (s : String) : String :=
  ⟨((s.data.dropWhile Char.isWhitespace).reverse.dropWhile Char.isWhitespace).reverse⟩

/-- JS `s.toLowerCase()` (ASCII case folding, as used by the `/i` regex flag). -/
def jsToLower (s : String) : String := ⟨s.data.map Char.toLower⟩

def jsIncludesAux (sub : List Char) : List Char → Bool
  | [] => sub.isEmpty
  | c :: rest => sub.isPrefixOf (c :: rest) || jsIncludesAux sub rest

/-- JS `s.includes(sub)`: `sub` occurs as a contiguous substring of `s`
(as in `error.message.includes("Only code files are allowed")`,
server.js:262). -/
def jsIncludes (s sub : String) : Bool := jsIncludesAux sub.data s.data

/-- JS truthiness of the optional `data.response` field: `undefined`/absent and
the empty string are falsy (`if (!data.response) throw ...`, server.js:207). -/
def jsTruthy : Option String → Bool
  | none => false
  | some s => s != ""

/-- server.js:89 — the extension allow-list of the multer `fileFilter` regex
`/\.(js|ts|py|java|cpp|c|go|rs|php|rb|jsx|tsx|html|css|json|yaml|yml)$/i`. -/
def allowedExtensions : List String :=
  ["js", "ts", "py", "java", "cpp", "c", "go", "rs", "php", "rb",
   "jsx", "tsx", "html", "css", "json", "yaml", "yml"]

/-- server.js:89-90 — `allowedTypes.test(file.originalname)`: the filename ends,
case-insensitively, in a dot followed by one of the allowed extensions. -/
def allowedTypesTest (name : String) : Bool :=
  allowedExtensions.any (fun ext => ("." ++ ext).data.isSuffixOf (jsToLower name).data)

/-- server.js:11 — `const PREVIEW_LENGTH = 300`. -/
def PREVIEW_LENGTH : Nat := 300

/-- server.js:12 — `REQUEST_TIMEOUT` default of 120000 ms (2 minutes). -/
def REQUEST_TIMEOUT : Nat := 120000

/-- server.js:153 — the marker appended to truncated content. -/
def truncationMarker : String := "\n\n// ... (file truncated for review)"

/-- server.js:165-173 — the fixed instructional prompt, embedding the original
filename and the (possibly truncated) content. -/
def optimizedPrompt (originalname truncatedContent : String) : String :=
  "Review this " ++ originalname ++
    " file. Provide brief feedback on:\n1. Code quality issues\n2. Potential bugs\n3. Best practice suggestions\n\nKeep response concise and under 500 words.\n\nCode:\n" ++
    truncatedContent

/-- server.js:202 — the error message built from a non-ok backend response:
`Ollama API error: ${response.status} - ${errorText}`. -/
def ollamaErrorMessage (status : Nat) (errorText : String) : String :=
  "Ollama API error: " ++ toString status ++ " - " ++ errorText

/-- server.js:268 — the 408 timeout error message (with the default timeout). -/
def timeoutMessage : String :=
  "Request timeout - Model took longer than " ++ toString (REQUEST_TIMEOUT / 1000) ++ " seconds"

/-- server.js:269 — the remediation suggestion attached to the 408 response. -/
def timeoutSuggestion : String :=
  "Try uploading a smaller file or increase REQUEST_TIMEOUT environment variable"

/-- server.js:247-249 — `reviewPreview`: the review text itself when it has at
most `PREVIEW_LENGTH` characters, else its first `PREVIEW_LENGTH` characters
with an ellipsis appended. -/
def reviewPreviewOf (reviewComments : String) : String :=
  if reviewComments.length > PREVIEW_LENGTH then
    jsSubstring0 reviewComments PREVIEW_LENGTH ++ "..."
  else
    reviewComments

/-- A materialized multipart upload: `req.file.originalname` and the text read
from the temporary file (`fs.readFile(filePath, "utf-8")`, server.js:139). -/
structure UploadedFile where
  originalname : String
  content : String
deriving DecidableEq, Repr

/-- The outcome of the single outbound `fetch` to the inference backend
(server.js:177-192): the abort timer fires first (`AbortError`), or the fetch
completes with an HTTP status, a raw body text, and — when parsed as JSON —
an optional `response` field. -/
inductive BackendOutcome where
  | timeout
  | completed (status : Nat) (bodyText : String) (responseField : Option String)
deriving DecidableEq, Repr

/-- server.js:115-122 — `cleanupFile` unlinks the temp file inside its own
try/catch: on failure it only logs; it never throws to the caller. -/
inductive CleanupOutcome where
  | removed
  | loggedFailure
deriving DecidableEq, Repr

/-- The `cleanupFile` call, parameterized by whether the underlying `unlink`
fails; either way it returns normally (server.js:115-122). -/
def cleanupFile (unlinkFails : Bool) : CleanupOutcome :=
  if unlinkFails then .loggedFailure else .removed

/-- The response body sent for a `/review` request: a JSON error object
`{error, details?, suggestion?}`, the JSON success object of server.js:242-253
(time-derived fields `processingTime`, `requestId`, `reviewFile` omitted), or
the HTML error page of Express's default error handler — the app registers no
error middleware, so an error passed to `next(err)` by the multer middleware
is answered by the framework with status 500 and an HTML page carrying the
error's message, never reaching the route handler. -/
inductive ResponseBody where
  | errorBody (error : String) (details suggestion : Option String)
  | successBody (message reviewPreview originalFile : String) (truncated : Bool)
  | htmlErrorPage (message : String)
deriving DecidableEq, Repr

/-- server.js:262-278 — the catch block's response to a thrown `Error` that is
not an `AbortError`: every such error's message is first tested for the
substring `"Only code files are allowed"`; on a hit the handler answers 400
echoing the message (server.js:262-264), otherwise the generic 500 with the
message as `details` (server.js:274-278). -/
def caughtError (msg : String) : Nat × ResponseBody :=
  if jsIncludes msg "Only code files are allowed" then
    (400, .errorBody msg none none)
  else
    (500, .errorBody "Failed to generate review" (some msg) none)

/-- The observable result of one `/review` request: HTTP status, JSON body,
and the side effects — whether the temp file was read, the prompt sent to the
backend (if any), whether the Markdown artifact was written, and the cleanup
outcome (if a temp file was materialized). -/
structure HandlerResult where
  status : Nat
  body : ResponseBody
  fileRead : Bool
  promptSent : Option String
  artifactWritten : Bool
  cleanup : Option CleanupOutcome
deriving DecidableEq, Repr

/-- server.js:131-279 — the handler body once a temp file is materialized
(extension accepted by the multer `fileFilter`).  Every thrown `Error` lands in
the catch at server.js:255 and is answered through `caughtError`, which applies
the substring test of server.js:262 before the generic 500; the aborted fetch
is the one exception: its `AbortError` message never contains the tested
substring, so it reaches the dedicated 408 branch of server.js:266-272. -/
def reviewAccepted (f : UploadedFile) (backend : BackendOutcome) (unlinkFails : Bool) :
    HandlerResult :=
  let content := f.content
  let clean : Option CleanupOutcome := some (cleanupFile unlinkFails)
  if (jsTrim content).length == 0 then
    { status := (caughtError "File appears to be empty").1,
      body := (caughtError "File appears to be empty").2,
      fileRead := true, promptSent := none, artifactWritten := false, cleanup := clean }
  else if content.length > 10000 then
    { status :=
        (caughtError "File too large for review (max 10KB). Please upload smaller files.").1,
      body :=
        (caughtError "File too large for review (max 10KB). Please upload smaller files.").2,
      fileRead := true, promptSent := none, artifactWritten := false, cleanup := clean }
  else
    let truncatedContent :=
      if content.length > 5000 then jsSubstring0 content 5000 ++ truncationMarker
      else content
    let prompt := optimizedPrompt f.originalname truncatedContent
    match backend with
    | .timeout =>
      { status := 408,
        body := .errorBody timeoutMessage none (some timeoutSuggestion),
        fileRead := true, promptSent := some prompt, artifactWritten := false, cleanup := clean }
    | .completed st bodyText responseField =>
      if st < 200 ∨ 300 ≤ st then
        { status := (caughtError (ollamaErrorMessage st bodyText)).1,
          body := (caughtError (ollamaErrorMessage st bodyText)).2,
          fileRead := true, promptSent := some prompt, artifactWritten := false, cleanup := clean }
      else if jsTruthy responseField then
        let reviewComments := responseField.getD ""
        { status := 200,
          body := .successBody "Review generated successfully" (reviewPreviewOf reviewComments)
            f.originalname (decide (content.length > 5000)),
          fileRead := true, promptSent := some prompt, artifactWritten := true, cleanup := clean }
      else
        { status := (caughtError "Invalid response from Ollama API").1,
          body := (caughtError "Invalid response from Ollama API").2,
          fileRead := true, promptSent := some prompt, artifactWritten := false, cleanup := clean }

/-- The `/review` route as composed (server.js:125): the multer middleware
first applies the `fileFilter`; on a disallowed extension it hands the
`"Only code files are allowed"` error to `next(err)`, so the route handler —
and with it the 400 mapping of server.js:262-264 — never runs.  No error
middleware is registered, so Express's default error handler answers HTTP 500
with an HTML error page; no temp file is materialized and no backend call is
made.  Absent a `file` field the handler returns 400
`{error: "No file uploaded"}` at server.js:132-134 before any file read. -/
def reviewRoute (file? : Option UploadedFile) (backend : BackendOutcome) (unlinkFails : Bool) :
    HandlerResult :=
  match file? with
  | none =>
    { status := 400, body := .errorBody "No file uploaded" none none,
      fileRead := false, promptSent := none, artifactWritten := false, cleanup := none }
  | some f =>
    if allowedTypesTest f.originalname then
      reviewAccepted f backend unlinkFails
    else
      { status := 500, body := .htmlErrorPage "Only code files are allowed",
        fileRead := false, promptSent := none, artifactWritten := false, cleanup := none }

/-! ### Helper lemmas -/

theorem length_jsSubstring0 (s : String) (n : Nat) :
    (jsSubstring0 s n).length = min n s.length := List.length_take ..

theorem trimLen_ne_zero_iff (s : String) (h : (jsTrim s).length ≠ 0) :
    ((jsTrim s).length == 0) = false := beq_eq_false_iff_ne.2 h

theorem dropWhile_of_head_false {α} (p : α → Bool) (a : α) (h : p a = false) (n : Nat) :
    List.dropWhile p (List.replicate n a) = List.replicate n a := by
  cases n with
  | zero => rfl
  | succ m => simp [List.replicate_succ, List.dropWhile_cons, h]

theorem jsTrim_replicate_a (n : Nat) :
    jsTrim ⟨List.replicate n 'a'⟩ = ⟨List.replicate n 'a'⟩ := by
  have h : Char.isWhitespace 'a' = false := by decide
  simp [jsTrim, dropWhile_of_head_false _ _ h, List.reverse_replicate]

theorem caughtError_tooLargeMsg :
    caughtError "File too large for review (max 10KB). Please upload smaller files." =
      (500, .errorBody "Failed to generate review"
        (some "File too large for review (max 10KB). Please upload smaller files.") none) := by
  decide

/-! ### Claims -/

/-- C1: at the failing input — an upload whose extension `.txt` is outside the
allow-list — multer's `fileFilter` hands the `"Only code files are allowed"`
error to `next(err)`, the route handler (and the 400 mapping at
server.js:262-264, which documents the intent) never runs, and Express's
default error handler answers HTTP 500 with an HTML page — not the
`UnsupportedFileType` 400 of the claim; no file is read and no prompt is
sent. -/
theorem review_disallowed_extension_500 :
    (reviewRoute (some ⟨"notes.txt", "hello"⟩) .timeout false).status = 500 ∧
    (reviewRoute (some ⟨"notes.txt", "hello"⟩) .timeout false).status ≠ 400 ∧
    (reviewRoute (some ⟨"notes.txt", "hello"⟩) .timeout false).body =
      .htmlErrorPage "Only code files are allowed" ∧
    (reviewRoute (some ⟨"notes.txt", "hello"⟩) .timeout false).promptSent = none ∧
    (reviewRoute (some ⟨"notes.txt", "hello"⟩) .timeout false).fileRead = false := by
  decide

/-- C9: a `POST /review` without a `file` field answers 400 with body
`{error: "No file uploaded"}`, reads no file, sends no prompt, and writes no
artifact. -/
theorem review_no_file_field (b : BackendOutcome) (u : Bool) :
    (reviewRoute none b u).status = 400 ∧
    (reviewRoute none b u).body = .errorBody "No file uploaded" none none ∧
    (reviewRoute none b u).fileRead = false ∧
    (reviewRoute none b u).promptSent = none ∧
    (reviewRoute none b u).artifactWritten = false := by
  simp [reviewRoute]

/-- C6: when the deadline timer aborts the backend call (`AbortError`), the
handler answers 408 with the timeout message and the remediation suggestion. -/
theorem review_timeout_maps_to_408 (f : UploadedFile) (u : Bool)
    (hx : allowedTypesTest f.originalname = true)
    (hne : (jsTrim f.content).length ≠ 0)
    (hsz : f.content.length ≤ 10000) :
    (reviewRoute (some f) .timeout u).status = 408 ∧
    (reviewRoute (some f) .timeout u).body =
      .errorBody timeoutMessage none (some timeoutSuggestion) := by
  have h1 := trimLen_ne_zero_iff f.content hne
  have h2 : ¬ f.content.length > 10000 := by omega
  simp [reviewRoute, hx, reviewAccepted, h1, h2]

/-- C6 witness: a concrete one-character `.py` upload whose backend call times
out receives the 408 response with the remediation suggestion. -/
theorem review_timeout_maps_to_408_witness :
    allowedTypesTest "a.py" = true ∧ (jsTrim "x").length ≠ 0 ∧ "x".length ≤ 10000 ∧
    ((reviewRoute (some ⟨"a.py", "x"⟩) .timeout false).status = 408 ∧
     (reviewRoute (some ⟨"a.py", "x"⟩) .timeout false).body =
       .errorBody timeoutMessage none (some timeoutSuggestion)) :=
  ⟨by decide, by decide, by decide,
   review_timeout_maps_to_408 ⟨"a.py", "x"⟩ false (by decide) (by decide) (by decide)⟩

/-- C4: at the failing input — an accepted `.py` upload with empty content —
the code maps the `"File appears to be empty"` error to the generic 500 of
server.js:274, not to the HTTP 400 the spec's error table prescribes for
`EmptyInput`; no prompt is sent. -/
theorem review_empty_file_maps_to_500 :
    (reviewRoute (some ⟨"a.py", ""⟩) (.completed 200 "ok" (some "review")) false).status = 500 ∧
    (reviewRoute (some ⟨"a.py", ""⟩) (.completed 200 "ok" (some "review")) false).status ≠ 400 ∧
    (reviewRoute (some ⟨"a.py", ""⟩) (.completed 200 "ok" (some "review")) false).body =
      .errorBody "Failed to generate review" (some "File appears to be empty") none ∧
    (reviewRoute (some ⟨"a.py", ""⟩) (.completed 200 "ok" (some "review")) false).promptSent =
      none := by
  decide

/-- C10: the emptiness test is `fileContent.trim().length === 0`
(server.js:143), so a whitespace-only upload is handled exactly like an upload
with empty content. -/
theorem review_whitespace_only_treated_as_empty (f : UploadedFile) (b : BackendOutcome) (u : Bool)
    (hws : (jsTrim f.content).length = 0) :
    reviewRoute (some f) b u = reviewRoute (some ⟨f.originalname, ""⟩) b u := by
  have h0 : (jsTrim "").length = 0 := by decide
  by_cases hx : allowedTypesTest f.originalname <;>
    simp [reviewRoute, hx, reviewAccepted, hws, h0]

/-- C10 witness: a three-space upload (raw length 3 ≠ 0) is handled exactly
like the empty upload with the same filename. -/
theorem review_whitespace_only_treated_as_empty_witness :
    (jsTrim "   ").length = 0 ∧ "   ".length ≠ 0 ∧
    reviewRoute (some ⟨"a.js", "   "⟩) .timeout false =
      reviewRoute (some ⟨"a.js", ""⟩) .timeout false :=
  ⟨by decide, by decide,
   review_whitespace_only_treated_as_empty ⟨"a.js", "   "⟩ .timeout false (by decide)⟩

/-- C2: on the accepted path the prompt always embeds the content, cut to
its first 5000 characters plus the truncation marker exactly when the content
exceeds 5000 characters; on a successful backend reply the response's
`truncated` flag is `fileContent.length > 5000`. -/
theorem review_prompt_truncation_and_flag (f : UploadedFile) (b : BackendOutcome)
    (st : Nat) (bt r : String) (u v : Bool)
    (hx : allowedTypesTest f.originalname = true)
    (hne : (jsTrim f.content).length ≠ 0)
    (hsz : f.content.length ≤ 10000)
    (hlo : 200 ≤ st) (hhi : st < 300) (hr : r ≠ "") :
    (reviewRoute (some f) b u).promptSent =
      some (optimizedPrompt f.originalname
        (if f.content.length > 5000 then jsSubstring0 f.content 5000 ++ truncationMarker
         else f.content)) ∧
    (reviewRoute (some f) (.completed st bt (some r)) v).body =
      .successBody "Review generated successfully" (reviewPreviewOf r) f.originalname
        (decide (f.content.length > 5000)) := by
  have h1 := trimLen_ne_zero_iff f.content hne
  have h2 : ¬ f.content.length > 10000 := by omega
  have hok : ¬ (st < 200 ∨ 300 ≤ st) := by omega
  have hrt : jsTruthy (some r) = true := by simp [jsTruthy, hr]
  refine ⟨?_, ?_⟩
  · cases b with
    | timeout => simp [reviewRoute, hx, reviewAccepted, h1, h2]
    | completed st2 bt2 rf =>
      simp only [reviewRoute, hx, if_true, reviewAccepted, h1, Bool.false_eq_true, if_false, h2]
      repeat' split
      all_goals rfl
  · simp [reviewRoute, hx, reviewAccepted, h1, h2, hok, hrt]

/-- C2 witness: a one-character `.py` upload (below the threshold) yields the
untruncated prompt and a `false` flag on a successful 200 backend reply. -/
theorem review_prompt_truncation_and_flag_witness :
    allowedTypesTest "a.py" = true ∧ (jsTrim "x").length ≠ 0 ∧ "x".length ≤ 10000 ∧
    200 ≤ 200 ∧ 200 < 300 ∧ "review" ≠ "" ∧
    ((reviewRoute (some ⟨"a.py", "x"⟩) (.completed 200 "ok" (some "review")) false).promptSent =
      some (optimizedPrompt "a.py"
        (if ("x" : String).length > 5000 then jsSubstring0 "x" 5000 ++ truncationMarker
         else "x")) ∧
     (reviewRoute (some ⟨"a.py", "x"⟩) (.completed 200 "ok" (some "review")) false).body =
      .successBody "Review generated successfully" (reviewPreviewOf "review") "a.py"
        (decide (("x" : String).length > 5000))) :=
  ⟨by decide, by decide, by decide, by decide, by decide, by decide,
   review_prompt_truncation_and_flag ⟨"a.py", "x"⟩ (.completed 200 "ok" (some "review"))
     200 "ok" "review" false false (by decide) (by decide) (by decide) (by decide) (by decide)
     (by decide)⟩

/-- C3: on a successful review the response body carries
`reviewPreviewOf reviewComments`; the preview equals the review when it has at
most `PREVIEW_LENGTH` (300) characters, otherwise it is the 300-character
prefix plus an ellipsis, so its length never exceeds 303. -/
theorem review_preview_bounded (f : UploadedFile) (st : Nat) (bt r : String) (u : Bool)
    (hx : allowedTypesTest f.originalname = true)
    (hne : (jsTrim f.content).length ≠ 0)
    (hsz : f.content.length ≤ 10000)
    (hlo : 200 ≤ st) (hhi : st < 300) (hr : r ≠ "") :
    (reviewRoute (some f) (.completed st bt (some r)) u).body =
      .successBody "Review generated successfully" (reviewPreviewOf r) f.originalname
        (decide (f.content.length > 5000)) ∧
    (reviewPreviewOf r).length ≤ PREVIEW_LENGTH + 3 ∧
    (r.length ≤ PREVIEW_LENGTH → reviewPreviewOf r = r) ∧
    (PREVIEW_LENGTH < r.length →
      reviewPreviewOf r = jsSubstring0 r PREVIEW_LENGTH ++ "..." ∧
      (jsSubstring0 r PREVIEW_LENGTH).data <+: r.data) := by
  have h1 := trimLen_ne_zero_iff f.content hne
  have h2 : ¬ f.content.length > 10000 := by omega
  have hok : ¬ (st < 200 ∨ 300 ≤ st) := by omega
  have hrt : jsTruthy (some r) = true := by simp [jsTruthy, hr]
  have hdots : ("..." : String).length = 3 := rfl
  refine ⟨?_, ?_, ?_, ?_⟩
  · simp [reviewRoute, hx, reviewAccepted, h1, h2, hok, hrt]
  · by_cases hc : r.length > PREVIEW_LENGTH
    · simp [reviewPreviewOf, hc, String.length_append, length_jsSubstring0, hdots]
    · rw [reviewPreviewOf, if_neg hc]
      omega
  · intro hle
    have hc : ¬ r.length > PREVIEW_LENGTH := by omega
    simp [reviewPreviewOf, hc]
  · intro hgt
    have hc : r.length > PREVIEW_LENGTH := hgt
    exact ⟨by simp [reviewPreviewOf, hc], List.take_prefix ..⟩

/-- C3 witness: the concrete successful review `"review"` (6 characters) is
returned in full as its own preview, within the 303-character bound. -/
theorem review_preview_bounded_witness :
    allowedTypesTest "b.py" = true ∧ (jsTrim "y").length ≠ 0 ∧ "y".length ≤ 10000 ∧
    200 ≤ 204 ∧ 204 < 300 ∧ "review" ≠ "" ∧
    ((reviewRoute (some ⟨"b.py", "y"⟩) (.completed 204 "ok" (some "review")) false).body =
      .successBody "Review generated successfully" (reviewPreviewOf "review") "b.py"
        (decide (("y" : String).length > 5000)) ∧
     (reviewPreviewOf "review").length ≤ PREVIEW_LENGTH + 3 ∧
     (("review" : String).length ≤ PREVIEW_LENGTH → reviewPreviewOf "review" = "review") ∧
     (PREVIEW_LENGTH < ("review" : String).length →
       reviewPreviewOf "review" = jsSubstring0 "review" PREVIEW_LENGTH ++ "..." ∧
       (jsSubstring0 "review" PREVIEW_LENGTH).data <+: ("review" : String).data)) :=
  ⟨by decide, by decide, by decide, by decide, by decide, by decide,
   review_preview_bounded ⟨"b.py", "y"⟩ 204 "ok" "review" false (by decide) (by decide)
     (by decide) (by decide) (by decide) (by decide)⟩

/-- The 10001-character content used to exercise the 10 KB content ceiling. -/
def bigContent : String := ⟨List.replicate 10001 'a'⟩

theorem bigContent_length : bigContent.length = 10001 :=
  List.length_replicate ..

theorem bigContent_trim_length : (jsTrim bigContent).length = 10001 := by
  show (jsTrim ⟨List.replicate 10001 'a'⟩).length = 10001
  rw [jsTrim_replicate_a]
  exact List.length_replicate ..

/-- C5 counterexample: an accepted `.py` upload of 10001 characters is
answered with HTTP 500, not the claimed 400. -/
theorem review_oversized_not_400 :
    (reviewRoute (some ⟨"big.py", bigContent⟩) (.completed 200 "ok" (some "review"))
        false).status = 500 ∧
    (reviewRoute (some ⟨"big.py", bigContent⟩) (.completed 200 "ok" (some "review"))
        false).status ≠ 400 := by
  have hx : allowedTypesTest "big.py" = true := by decide
  have hne : (jsTrim bigContent).length ≠ 0 := by rw [bigContent_trim_length]; omega
  have h1 := trimLen_ne_zero_iff bigContent hne
  have hsz : bigContent.length > 10000 := by rw [bigContent_length]; omega
  refine ⟨?_, ?_⟩ <;> simp [reviewRoute, hx, reviewAccepted, h1, hsz, caughtError_tooLargeMsg]

/-- C5 amended: an accepted upload whose content exceeds the 10 KB ceiling is
rejected before any backend call with the too-large message, surfaced through
the generic handler as HTTP 500 (not 400). -/
theorem review_oversized_500_no_backend (f : UploadedFile) (b : BackendOutcome) (u : Bool)
    (hx : allowedTypesTest f.originalname = true)
    (hne : (jsTrim f.content).length ≠ 0)
    (hsz : f.content.length > 10000) :
    (reviewRoute (some f) b u).status = 500 ∧
    (reviewRoute (some f) b u).body =
      .errorBody "Failed to generate review"
        (some "File too large for review (max 10KB). Please upload smaller files.") none ∧
    (reviewRoute (some f) b u).promptSent = none := by
  have h1 := trimLen_ne_zero_iff f.content hne
  simp [reviewRoute, hx, reviewAccepted, h1, hsz, caughtError_tooLargeMsg]

/-- C5 witness: the 10001-character upload concretely receives the 500
too-large response and no prompt is sent. -/
theorem review_oversized_500_no_backend_witness :
    allowedTypesTest "big.py" = true ∧ (jsTrim bigContent).length ≠ 0 ∧
    bigContent.length > 10000 ∧
    ((reviewRoute (some ⟨"big.py", bigContent⟩) .timeout false).status = 500 ∧
     (reviewRoute (some ⟨"big.py", bigContent⟩) .timeout false).body =
       .errorBody "Failed to generate review"
         (some "File too large for review (max 10KB). Please upload smaller files.") none ∧
     (reviewRoute (some ⟨"big.py", bigContent⟩) .timeout false).promptSent = none) :=
  ⟨by decide, by rw [bigContent_trim_length]; omega, by rw [bigContent_length]; omega,
   review_oversized_500_no_backend ⟨"big.py", bigContent⟩ .timeout false (by decide)
     (by rw [bigContent_trim_length]; omega) (by rw [bigContent_length]; omega)⟩

/-- C7 counterexample: a non-2xx backend reply whose body is
`"Only code files are allowed"` makes the composed thrown message pass the
substring test of server.js:262, so the handler answers 400 echoing that
message — not the claimed 500. -/
theorem review_backend_error_echoed_as_400 :
    (reviewRoute (some ⟨"e.py", "q"⟩)
        (.completed 500 "Only code files are allowed" none) false).status = 400 ∧
    (reviewRoute (some ⟨"e.py", "q"⟩)
        (.completed 500 "Only code files are allowed" none) false).status ≠ 500 ∧
    (reviewRoute (some ⟨"e.py", "q"⟩)
        (.completed 500 "Only code files are allowed" none) false).body =
      .errorBody (ollamaErrorMessage 500 "Only code files are allowed") none none := by
  decide

/-- C7 (amended): a non-2xx backend reply makes the handler throw
`Ollama API error: <status> - <body>`; provided that composed message does not
contain the substring `"Only code files are allowed"` (the catch tests every
message for it first, server.js:262), it is surfaced as HTTP 500 with those
details, and no Markdown artifact is written. -/
theorem review_backend_error_500 (f : UploadedFile) (st : Nat) (bt : String)
    (rf : Option String) (u : Bool)
    (hx : allowedTypesTest f.originalname = true)
    (hne : (jsTrim f.content).length ≠ 0)
    (hsz : f.content.length ≤ 10000)
    (hbad : st < 200 ∨ 300 ≤ st)
    (hmsg : jsIncludes (ollamaErrorMessage st bt) "Only code files are allowed" = false) :
    (reviewRoute (some f) (.completed st bt rf) u).status = 500 ∧
    (reviewRoute (some f) (.completed st bt rf) u).body =
      .errorBody "Failed to generate review"
        (some ("Ollama API error: " ++ toString st ++ " - " ++ bt)) none ∧
    (reviewRoute (some f) (.completed st bt rf) u).artifactWritten = false := by
  have h1 := trimLen_ne_zero_iff f.content hne
  have h2 : ¬ f.content.length > 10000 := by omega
  simp only [ollamaErrorMessage] at hmsg
  simp [reviewRoute, hx, reviewAccepted, h1, h2, hbad, caughtError, ollamaErrorMessage, hmsg]

/-- C7 witness: a backend 404 with body `"model not found"` concretely yields
the 500 response embedding status and body, with no artifact written. -/
theorem review_backend_error_500_witness :
    allowedTypesTest "c.py" = true ∧ (jsTrim "z").length ≠ 0 ∧ "z".length ≤ 10000 ∧
    (404 < 200 ∨ 300 ≤ 404) ∧
    jsIncludes (ollamaErrorMessage 404 "model not found") "Only code files are allowed" = false ∧
    ((reviewRoute (some ⟨"c.py", "z"⟩) (.completed 404 "model not found" none) false).status
        = 500 ∧
     (reviewRoute (some ⟨"c.py", "z"⟩) (.completed 404 "model not found" none) false).body =
       .errorBody "Failed to generate review"
         (some ("Ollama API error: " ++ toString 404 ++ " - " ++ "model not found")) none ∧
     (reviewRoute (some ⟨"c.py", "z"⟩)
        (.completed 404 "model not found" none) false).artifactWritten = false) :=
  ⟨by decide, by decide, by decide, by decide, by decide,
   review_backend_error_500 ⟨"c.py", "z"⟩ 404 "model not found" none false (by decide)
     (by decide) (by decide) (by decide) (by decide)⟩

theorem reviewAccepted_cleanup (f : UploadedFile) (b : BackendOutcome) (u : Bool) :
    (reviewAccepted f b u).cleanup = some (cleanupFile u) := by
  simp only [reviewAccepted]
  repeat' split
  all_goals rfl

theorem reviewAccepted_status_indep (f : UploadedFile) (b : BackendOutcome) (u v : Bool) :
    (reviewAccepted f b u).status = (reviewAccepted f b v).status := by
  simp only [reviewAccepted]
  repeat' split
  all_goals rfl

theorem reviewAccepted_body_indep (f : UploadedFile) (b : BackendOutcome) (u v : Bool) :
    (reviewAccepted f b u).body = (reviewAccepted f b v).body := by
  simp only [reviewAccepted]
  repeat' split
  all_goals rfl

/-- C8: whenever a temp file was materialized (file present, extension
accepted), `cleanupFile` runs on every exit path — for every content and every
backend outcome — and an `unlink` failure is only logged: the response status
and body are identical whether or not cleanup succeeds. -/
theorem review_cleanup_every_path (f : UploadedFile) (b : BackendOutcome) (u v : Bool)
    (hx : allowedTypesTest f.originalname = true) :
    (reviewRoute (some f) b u).cleanup = some (cleanupFile u) ∧
    (reviewRoute (some f) b u).status = (reviewRoute (some f) b v).status ∧
    (reviewRoute (some f) b u).body = (reviewRoute (some f) b v).body := by
  simp only [reviewRoute, hx, if_true]
  exact ⟨reviewAccepted_cleanup f b u, reviewAccepted_status_indep f b u v,
    reviewAccepted_body_indep f b u v⟩

/-- C8 witness: for a concrete accepted upload and a timed-out backend call,
cleanup runs (with its failure merely logged when `unlink` fails) and the
response is unchanged by the cleanup failure. -/
theorem review_cleanup_every_path_witness :
    allowedTypesTest "d.py" = true ∧
    ((reviewRoute (some ⟨"d.py", "w"⟩) .timeout true).cleanup = some (cleanupFile true) ∧
     (reviewRoute (some ⟨"d.py", "w"⟩) .timeout true).status =
       (reviewRoute (some ⟨"d.py", "w"⟩) .timeout false).status ∧
     (reviewRoute (some ⟨"d.py", "w"⟩) .timeout true).body =
       (reviewRoute (some ⟨"d.py", "w"⟩) .timeout false).body) :=
  ⟨by decide, review_cleanup_every_path ⟨"d.py", "w"⟩ .timeout true false (by decide)⟩
